import Mathlib

/-!
Verification of the Card Expansion Coordinator of the fynstra-site
single-page application (src/src/App.tsx, the revision spanning the
CardGrid component and the App component with `toggleService`,
`togglePackage`, `startCloseService`, `startClosePackage` and
`closeAllWithOverlay`).

The coordinator state is five React `useState` cells:
  openService, openPackage    : number | null   (SelectionState per group)
  closingService, closingPackage : number | null (TransitionState per group)
  overlayPhase : "open" | "closing" | "idle"
plus the independent `mobileOpen` boolean that feeds the derived
scroll-lock flag.

React semantics captured by the embedding:
  * every read of a state cell inside one click handler sees the state
    committed before the handler ran (closure capture), and all setter
    calls of the handler are applied, in program order, to produce the
    next committed state;
  * `setTimeout(f, ANIM_MS)` schedules `f` to run ANIM_MS later; the
    callbacks only call setters with values captured at scheduling time.

A handler is therefore embedded as a function from the pre-state to the
list of primitive actions (setter calls and timer schedulings) it
performs, in source order; `runActs` executes such a list.  Timers are
kept with absolute fire times and fired by explicit `advance` events.
-/

/-- Fixed animation duration in milliseconds (`const ANIM_MS = 420`). -/
def ANIM_MS : Nat := 420

/-- The overlay phase: `"open" | "closing" | "idle"` in the source. -/
inductive OverlayPhase : Type
  | open_
  | closing
  | idle
deriving DecidableEq, Repr

/-- The five coordinator state cells plus the mobile-menu flag. -/
structure CoordState : Type where
  openService : Option Nat
  openPackage : Option Nat
  closingService : Option Nat
  closingPackage : Option Nat
  overlayPhase : OverlayPhase
  mobileOpen : Bool
deriving DecidableEq, Repr

/-- Initial state at page mount: every `useState` starts at null / idle / false. -/
def initState : CoordState :=
  ⟨none, none, none, none, OverlayPhase.idle, false⟩

/-- The bodies of the `setTimeout` callbacks appearing in the source. -/
inductive TimerAction : Type
  | clearClosingService
  | clearClosingPackage
  | reopenService (i : Nat)
  | reopenPackage (i : Nat)
  | overlayIdle
deriving DecidableEq, Repr

/-- Effect of a timer callback on the committed state.
`reopenService i` is the callback of the same-group hand-off
(`setClosingService(null); setOpenService(i)`), and similarly for
packages; `overlayIdle` is `setOverlayPhase("idle")`. -/
def applyTimer : TimerAction → CoordState → CoordState
  | TimerAction.clearClosingService, s => { s with closingService := none }
  | TimerAction.clearClosingPackage, s => { s with closingPackage := none }
  | TimerAction.reopenService i, s =>
      { s with closingService := none, openService := some i }
  | TimerAction.reopenPackage i, s =>
      { s with closingPackage := none, openPackage := some i }
  | TimerAction.overlayIdle, s => { s with overlayPhase := OverlayPhase.idle }

/-- A primitive action of a click handler: one setter call, or one
`setTimeout(cb, ANIM_MS)`. -/
inductive Act : Type
  | setOpenService (v : Option Nat)
  | setOpenPackage (v : Option Nat)
  | setClosingService (v : Option Nat)
  | setClosingPackage (v : Option Nat)
  | setOverlayPhase (p : OverlayPhase)
  | schedule (ta : TimerAction)
deriving DecidableEq, Repr

/-- Effect of one action on the committed state (a `schedule` does not
touch the state cells). -/
def applySet : Act → CoordState → CoordState
  | Act.setOpenService v, s => { s with openService := v }
  | Act.setOpenPackage v, s => { s with openPackage := v }
  | Act.setClosingService v, s => { s with closingService := v }
  | Act.setClosingPackage v, s => { s with closingPackage := v }
  | Act.setOverlayPhase p, s => { s with overlayPhase := p }
  | Act.schedule _, s => s

/-- The timers an action list schedules, with absolute fire times: every
`setTimeout` in the coordinator uses delay `ANIM_MS`. -/
def schedOf (t : Nat) (acts : List Act) : List (Nat × TimerAction) :=
  acts.filterMap fun a =>
    match a with
    | Act.schedule ta => some (t + ANIM_MS, ta)
    | _ => none

/-- All setter effects of an action list, in program order. -/
def applySets (acts : List Act) (s : CoordState) : CoordState :=
  acts.foldl (fun s a => applySet a s) s

/-- One action, executed at time `t` against committed state and
pending-timer list. -/
def applyAct (t : Nat) (p : CoordState × List (Nat × TimerAction)) (a : Act) :
    CoordState × List (Nat × TimerAction) :=
  match a with
  | Act.schedule ta => (p.1, p.2 ++ [(t + ANIM_MS, ta)])
  | a => (applySet a p.1, p.2)

/-- Execute a handler's action list in source order at time `t`. -/
def runActs (t : Nat) (acts : List Act)
    (p : CoordState × List (Nat × TimerAction)) :
    CoordState × List (Nat × TimerAction) :=
  acts.foldl (applyAct t) p

/-- `startCloseService` (source):
`setClosingService(idx); setOpenService(null);
 setTimeout(() => setClosingService(null), ANIM_MS)`. -/
def startCloseServiceActs (idx : Nat) : List Act :=
  [Act.setClosingService (some idx), Act.setOpenService none,
   Act.schedule TimerAction.clearClosingService]

/-- `startClosePackage` (source), mirror of `startCloseServiceActs`. -/
def startClosePackageActs (idx : Nat) : List Act :=
  [Act.setClosingPackage (some idx), Act.setOpenPackage none,
   Act.schedule TimerAction.clearClosingPackage]

/-- `closeAllWithOverlay` (source):
`setOverlayPhase("closing");
 if (openService !== null) startCloseService(openService);
 if (openPackage !== null) startClosePackage(openPackage);
 setTimeout(() => setOverlayPhase("idle"), ANIM_MS)`.
All reads see the pre-handler state `s`. -/
def closeAllWithOverlayActs (s : CoordState) : List Act :=
  Act.setOverlayPhase OverlayPhase.closing ::
    ((match s.openService with
      | some j => startCloseServiceActs j
      | none => []) ++
     (match s.openPackage with
      | some j => startClosePackageActs j
      | none => []) ++
     [Act.schedule TimerAction.overlayIdle])

/-- `toggleService` (source), reading pre-handler state `s`:
the `i === null` branch closes everything only if a service card is
open; otherwise any open package card is moved to its closing state
first (`setClosingPackage`, a scheduled clear, `setOpenPackage(null)` in
exactly that order), then the three service cases: open immediately,
toggle-off via `closeAllWithOverlay`, or same-group hand-off whose
reopening is deferred to a timer.  `scrollCardIntoView` only calls
browser APIs and touches no coordinator state, so it contributes no
action. -/
def toggleServiceActs (s : CoordState) : Option Nat → List Act
  | none =>
      match s.openService with
      | some _ => closeAllWithOverlayActs s
      | none => []
  | some i =>
      (match s.openPackage with
       | some p =>
           [Act.setClosingPackage (some p),
            Act.schedule TimerAction.clearClosingPackage,
            Act.setOpenPackage none]
       | none => []) ++
      (match s.openService with
       | none => [Act.setOverlayPhase OverlayPhase.open_,
                  Act.setOpenService (some i)]
       | some o =>
           if o = i then closeAllWithOverlayActs s
           else
             [Act.setClosingService (some o), Act.setOpenService none,
              Act.schedule (TimerAction.reopenService i)] ++
             (if s.overlayPhase = OverlayPhase.idle
              then [Act.setOverlayPhase OverlayPhase.open_]
              else []))

/-- `togglePackage` (source), mirror of `toggleServiceActs`. -/
def togglePackageActs (s : CoordState) : Option Nat → List Act
  | none =>
      match s.openPackage with
      | some _ => closeAllWithOverlayActs s
      | none => []
  | some i =>
      (match s.openService with
       | some p =>
           [Act.setClosingService (some p),
            Act.schedule TimerAction.clearClosingService,
            Act.setOpenService none]
       | none => []) ++
      (match s.openPackage with
       | none => [Act.setOverlayPhase OverlayPhase.open_,
                  Act.setOpenPackage (some i)]
       | some o =>
           if o = i then closeAllWithOverlayActs s
           else
             [Act.setClosingPackage (some o), Act.setOpenPackage none,
              Act.schedule (TimerAction.reopenPackage i)] ++
             (if s.overlayPhase = OverlayPhase.idle
              then [Act.setOverlayPhase OverlayPhase.open_]
              else []))

/-- Fire every pending timer whose fire time has been reached, in list
order (the pending list is kept in scheduling order, and fire times are
nondecreasing along it on reachable states, so this is the event-loop
order). -/
def fireDue (t : Nat) : List (Nat × TimerAction) → CoordState →
    CoordState × List (Nat × TimerAction)
  | [], s => (s, [])
  | (ft, ta) :: rest, s =>
      if ft ≤ t then fireDue t rest (applyTimer ta s)
      else
        let p := fireDue t rest s
        (p.1, (ft, ta) :: p.2)

/-- Whole-system state: current time, committed coordinator state, and
the pending timers in scheduling order. -/
structure Sys : Type where
  now : Nat
  st : CoordState
  timers : List (Nat × TimerAction)
deriving DecidableEq, Repr

/-- System state at page mount. -/
def initSys : Sys := ⟨0, initState, []⟩

/-- External events: the two groups' toggle calls, a click on the
overlay backdrop, and the passage of time (which fires due timers). -/
inductive Event : Type
  | clickService (i : Option Nat)
  | clickPackage (i : Option Nat)
  | backdropClick
  | advance (dt : Nat)
deriving DecidableEq, Repr

/-- One event.  The backdrop button (`onClick={closeAllWithOverlay}`) is
mounted only while `overlayPhase !== "idle"` and receives pointer events
only while `overlayPhase === "open"`, so a backdrop click is a no-op
unless the phase is `open`. -/
def step : Event → Sys → Sys
  | Event.clickService i, y =>
      let p := runActs y.now (toggleServiceActs y.st i) (y.st, y.timers)
      ⟨y.now, p.1, p.2⟩
  | Event.clickPackage i, y =>
      let p := runActs y.now (togglePackageActs y.st i) (y.st, y.timers)
      ⟨y.now, p.1, p.2⟩
  | Event.backdropClick, y =>
      if y.st.overlayPhase = OverlayPhase.open_ then
        let p := runActs y.now (closeAllWithOverlayActs y.st) (y.st, y.timers)
        ⟨y.now, p.1, p.2⟩
      else y
  | Event.advance dt, y =>
      let p := fireDue (y.now + dt) y.timers y.st
      ⟨y.now + dt, p.1, p.2⟩

/-- Run an event trace from page mount. -/
def run (es : List Event) : Sys :=
  es.foldl (fun y e => step e y) initSys

/-- Reachability by an arbitrary trace of clicks and timer firings. -/
inductive Reach : Sys → Prop
  | base : Reach initSys
  | next {y : Sys} {e : Event} : Reach y → Reach (step e y)

/-- Derived render values from the source.
`overlayMounted = overlayPhase !== "idle"`. -/
def overlayMounted (s : CoordState) : Bool :=
  decide (s.overlayPhase ≠ OverlayPhase.idle)

/-- The scroll lock: `lock = overlayPhase !== "idle" || mobileOpen`. -/
def scrollLocked (s : CoordState) : Bool :=
  decide (s.overlayPhase ≠ OverlayPhase.idle) || s.mobileOpen

/-- The backdrop's pointer receptivity:
`pointerEvents: overlayPhase === "open" ? "auto" : "none"`. -/
def overlayReceptive (s : CoordState) : Bool :=
  decide (s.overlayPhase = OverlayPhase.open_)

/-- `dimOthers` from `CardGrid`:
`overlayPhase === "open" && !(openIndex === i || closingIndex === i)`. -/
def dimOthers (phase : OverlayPhase) (openIndex closingIndex : Option Nat)
    (i : Nat) : Bool :=
  decide (phase = OverlayPhase.open_) &&
    !(decide (openIndex = some i) || decide (closingIndex = some i))

/-- Number of cards in the `services` array of the source (one card,
"Copywriting"). -/
def servicesCount : Nat := 1

/-- Number of cards in the `packages` array of the source (Budget,
Starter, Growth, Launch, Retainer). -/
def packagesCount : Nat := 5

/-!
Well-spaced traces.  Several of the spec's invariants are broken by the
stale-timer races the spec itself flags in its design notes; they do
hold when every click happens while no timer is pending (clicks at
least one animation duration apart).  `AllowedEv` expresses that
discipline and `Good` is the inductive shape invariant of the states
reachable under it.
-/

/-- An event is well-spaced in `y` when it is a passage of time, or a
click made while no timer is pending. -/
def AllowedEv (y : Sys) : Event → Prop
  | Event.advance _ => True
  | _ => y.timers = []

/-- Reachability by a well-spaced trace. -/
inductive WSReach : Sys → Prop
  | base : WSReach initSys
  | next {y : Sys} {e : Event} : WSReach y → AllowedEv y e → WSReach (step e y)

/-- Shape invariant of well-spaced reachable system states: quiescent
with nothing open, quiescent with one card open in one group, the
close-all window, the same-group hand-off window, or the cross-group
window with the new card already open while the other group's card
animates out. -/
inductive Good : Sys → Prop
  | q0 (t : Nat) (m : Bool) :
      Good ⟨t, ⟨none, none, none, none, OverlayPhase.idle, m⟩, []⟩
  | qS (t : Nat) (m : Bool) (j : Nat) :
      Good ⟨t, ⟨some j, none, none, none, OverlayPhase.open_, m⟩, []⟩
  | qP (t : Nat) (m : Bool) (j : Nat) :
      Good ⟨t, ⟨none, some j, none, none, OverlayPhase.open_, m⟩, []⟩
  | m1S (t : Nat) (m : Bool) (j ft : Nat) :
      Good ⟨t, ⟨none, none, some j, none, OverlayPhase.closing, m⟩,
        [(ft, TimerAction.clearClosingService), (ft, TimerAction.overlayIdle)]⟩
  | m1P (t : Nat) (m : Bool) (j ft : Nat) :
      Good ⟨t, ⟨none, none, none, some j, OverlayPhase.closing, m⟩,
        [(ft, TimerAction.clearClosingPackage), (ft, TimerAction.overlayIdle)]⟩
  | m2S (t : Nat) (m : Bool) (j i ft : Nat) :
      Good ⟨t, ⟨none, none, some j, none, OverlayPhase.open_, m⟩,
        [(ft, TimerAction.reopenService i)]⟩
  | m2P (t : Nat) (m : Bool) (j i ft : Nat) :
      Good ⟨t, ⟨none, none, none, some j, OverlayPhase.open_, m⟩,
        [(ft, TimerAction.reopenPackage i)]⟩
  | m3SP (t : Nat) (m : Bool) (j i ft : Nat) :
      Good ⟨t, ⟨none, some i, some j, none, OverlayPhase.open_, m⟩,
        [(ft, TimerAction.clearClosingService)]⟩
  | m3PS (t : Nat) (m : Bool) (j i ft : Nat) :
      Good ⟨t, ⟨some i, none, none, some j, OverlayPhase.open_, m⟩,
        [(ft, TimerAction.clearClosingPackage)]⟩

theorem good_step {y : Sys} {e : Event} (hg : Good y) (ha : AllowedEv y e) :
    Good (step e y) := by
  cases e with
  | clickService i =>
      cases hg with
      | q0 t m =>
          cases i with
          | none => exact Good.q0 t m
          | some i0 => exact Good.qS t m i0
      | qS t m j =>
          cases i with
          | none => exact Good.m1S t m j (t + ANIM_MS)
          | some i0 =>
              by_cases h : j = i0
              · have hstep :
                    step (Event.clickService (some i0))
                      ⟨t, ⟨some j, none, none, none, OverlayPhase.open_, m⟩, []⟩ =
                    ⟨t, ⟨none, none, some j, none, OverlayPhase.closing, m⟩,
                      [(t + ANIM_MS, TimerAction.clearClosingService),
                       (t + ANIM_MS, TimerAction.overlayIdle)]⟩ := by
                  subst h
                  simp [step, toggleServiceActs, closeAllWithOverlayActs,
                    startCloseServiceActs, runActs, applyAct, applySet]
                rw [hstep]
                exact Good.m1S t m j (t + ANIM_MS)
              · have hstep :
                    step (Event.clickService (some i0))
                      ⟨t, ⟨some j, none, none, none, OverlayPhase.open_, m⟩, []⟩ =
                    ⟨t, ⟨none, none, some j, none, OverlayPhase.open_, m⟩,
                      [(t + ANIM_MS, TimerAction.reopenService i0)]⟩ := by
                  simp [step, toggleServiceActs, h, runActs, applyAct, applySet]
                rw [hstep]
                exact Good.m2S t m j i0 (t + ANIM_MS)
      | qP t m j =>
          cases i with
          | none => exact Good.qP t m j
          | some i0 => exact Good.m3PS t m j i0 (t + ANIM_MS)
      | m1S t m j ft => simp [AllowedEv] at ha
      | m1P t m j ft => simp [AllowedEv] at ha
      | m2S t m j i0 ft => simp [AllowedEv] at ha
      | m2P t m j i0 ft => simp [AllowedEv] at ha
      | m3SP t m j i0 ft => simp [AllowedEv] at ha
      | m3PS t m j i0 ft => simp [AllowedEv] at ha
  | clickPackage i =>
      cases hg with
      | q0 t m =>
          cases i with
          | none => exact Good.q0 t m
          | some i0 => exact Good.qP t m i0
      | qP t m j =>
          cases i with
          | none => exact Good.m1P t m j (t + ANIM_MS)
          | some i0 =>
              by_cases h : j = i0
              · have hstep :
                    step (Event.clickPackage (some i0))
                      ⟨t, ⟨none, some j, none, none, OverlayPhase.open_, m⟩, []⟩ =
                    ⟨t, ⟨none, none, none, some j, OverlayPhase.closing, m⟩,
                      [(t + ANIM_MS, TimerAction.clearClosingPackage),
                       (t + ANIM_MS, TimerAction.overlayIdle)]⟩ := by
                  subst h
                  simp [step, togglePackageActs, closeAllWithOverlayActs,
                    startClosePackageActs, runActs, applyAct, applySet]
                rw [hstep]
                exact Good.m1P t m j (t + ANIM_MS)
              · have hstep :
                    step (Event.clickPackage (some i0))
                      ⟨t, ⟨none, some j, none, none, OverlayPhase.open_, m⟩, []⟩ =
                    ⟨t, ⟨none, none, none, some j, OverlayPhase.open_, m⟩,
                      [(t + ANIM_MS, TimerAction.reopenPackage i0)]⟩ := by
                  simp [step, togglePackageActs, h, runActs, applyAct, applySet]
                rw [hstep]
                exact Good.m2P t m j i0 (t + ANIM_MS)
      | qS t m j =>
          cases i with
          | none => exact Good.qS t m j
          | some i0 => exact Good.m3SP t m j i0 (t + ANIM_MS)
      | m1S t m j ft => simp [AllowedEv] at ha
      | m1P t m j ft => simp [AllowedEv] at ha
      | m2S t m j i0 ft => simp [AllowedEv] at ha
      | m2P t m j i0 ft => simp [AllowedEv] at ha
      | m3SP t m j i0 ft => simp [AllowedEv] at ha
      | m3PS t m j i0 ft => simp [AllowedEv] at ha
  | backdropClick =>
      cases hg with
      | q0 t m => exact Good.q0 t m
      | qS t m j => exact Good.m1S t m j (t + ANIM_MS)
      | qP t m j => exact Good.m1P t m j (t + ANIM_MS)
      | m1S t m j ft => simp [AllowedEv] at ha
      | m1P t m j ft => simp [AllowedEv] at ha
      | m2S t m j i0 ft => simp [AllowedEv] at ha
      | m2P t m j i0 ft => simp [AllowedEv] at ha
      | m3SP t m j i0 ft => simp [AllowedEv] at ha
      | m3PS t m j i0 ft => simp [AllowedEv] at ha
  | advance dt =>
      cases hg with
      | q0 t m => exact Good.q0 (t + dt) m
      | qS t m j => exact Good.qS (t + dt) m j
      | qP t m j => exact Good.qP (t + dt) m j
      | m1S t m j ft =>
          by_cases hft : ft ≤ t + dt
          · have hstep :
                step (Event.advance dt)
                  ⟨t, ⟨none, none, some j, none, OverlayPhase.closing, m⟩,
                    [(ft, TimerAction.clearClosingService),
                     (ft, TimerAction.overlayIdle)]⟩ =
                ⟨t + dt, ⟨none, none, none, none, OverlayPhase.idle, m⟩, []⟩ := by
              simp [step, fireDue, hft, applyTimer]
            rw [hstep]
            exact Good.q0 (t + dt) m
          · have hstep :
                step (Event.advance dt)
                  ⟨t, ⟨none, none, some j, none, OverlayPhase.closing, m⟩,
                    [(ft, TimerAction.clearClosingService),
                     (ft, TimerAction.overlayIdle)]⟩ =
                ⟨t + dt, ⟨none, none, some j, none, OverlayPhase.closing, m⟩,
                  [(ft, TimerAction.clearClosingService),
                   (ft, TimerAction.overlayIdle)]⟩ := by
              simp [step, fireDue, hft]
            rw [hstep]
            exact Good.m1S (t + dt) m j ft
      | m1P t m j ft =>
          by_cases hft : ft ≤ t + dt
          · have hstep :
                step (Event.advance dt)
                  ⟨t, ⟨none, none, none, some j, OverlayPhase.closing, m⟩,
                    [(ft, TimerAction.clearClosingPackage),
                     (ft, TimerAction.overlayIdle)]⟩ =
                ⟨t + dt, ⟨none, none, none, none, OverlayPhase.idle, m⟩, []⟩ := by
              simp [step, fireDue, hft, applyTimer]
            rw [hstep]
            exact Good.q0 (t + dt) m
          · have hstep :
                step (Event.advance dt)
                  ⟨t, ⟨none, none, none, some j, OverlayPhase.closing, m⟩,
                    [(ft, TimerAction.clearClosingPackage),
                     (ft, TimerAction.overlayIdle)]⟩ =
                ⟨t + dt, ⟨none, none, none, some j, OverlayPhase.closing, m⟩,
                  [(ft, TimerAction.clearClosingPackage),
                   (ft, TimerAction.overlayIdle)]⟩ := by
              simp [step, fireDue, hft]
            rw [hstep]
            exact Good.m1P (t + dt) m j ft
      | m2S t m j i0 ft =>
          by_cases hft : ft ≤ t + dt
          · have hstep :
                step (Event.advance dt)
                  ⟨t, ⟨none, none, some j, none, OverlayPhase.open_, m⟩,
                    [(ft, TimerAction.reopenService i0)]⟩ =
                ⟨t + dt, ⟨some i0, none, none, none, OverlayPhase.open_, m⟩, []⟩ := by
              simp [step, fireDue, hft, applyTimer]
            rw [hstep]
            exact Good.qS (t + dt) m i0
          · have hstep :
                step (Event.advance dt)
                  ⟨t, ⟨none, none, some j, none, OverlayPhase.open_, m⟩,
                    [(ft, TimerAction.reopenService i0)]⟩ =
                ⟨t + dt, ⟨none, none, some j, none, OverlayPhase.open_, m⟩,
                  [(ft, TimerAction.reopenService i0)]⟩ := by
              simp [step, fireDue, hft]
            rw [hstep]
            exact Good.m2S (t + dt) m j i0 ft
      | m2P t m j i0 ft =>
          by_cases hft : ft ≤ t + dt
          · have hstep :
                step (Event.advance dt)
                  ⟨t, ⟨none, none, none, some j, OverlayPhase.open_, m⟩,
                    [(ft, TimerAction.reopenPackage i0)]⟩ =
                ⟨t + dt, ⟨none, some i0, none, none, OverlayPhase.open_, m⟩, []⟩ := by
              simp [step, fireDue, hft, applyTimer]
            rw [hstep]
            exact Good.qP (t + dt) m i0
          · have hstep :
                step (Event.advance dt)
                  ⟨t, ⟨none, none, none, some j, OverlayPhase.open_, m⟩,
                    [(ft, TimerAction.reopenPackage i0)]⟩ =
                ⟨t + dt, ⟨none, none, none, some j, OverlayPhase.open_, m⟩,
                  [(ft, TimerAction.reopenPackage i0)]⟩ := by
              simp [step, fireDue, hft]
            rw [hstep]
            exact Good.m2P (t + dt) m j i0 ft
      | m3SP t m j i0 ft =>
          by_cases hft : ft ≤ t + dt
          · have hstep :
                step (Event.advance dt)
                  ⟨t, ⟨none, some i0, some j, none, OverlayPhase.open_, m⟩,
                    [(ft, TimerAction.clearClosingService)]⟩ =
                ⟨t + dt, ⟨none, some i0, none, none, OverlayPhase.open_, m⟩, []⟩ := by
              simp [step, fireDue, hft, applyTimer]
            rw [hstep]
            exact Good.qP (t + dt) m i0
          · have hstep :
                step (Event.advance dt)
                  ⟨t, ⟨none, some i0, some j, none, OverlayPhase.open_, m⟩,
                    [(ft, TimerAction.clearClosingService)]⟩ =
                ⟨t + dt, ⟨none, some i0, some j, none, OverlayPhase.open_, m⟩,
                  [(ft, TimerAction.clearClosingService)]⟩ := by
              simp [step, fireDue, hft]
            rw [hstep]
            exact Good.m3SP (t + dt) m j i0 ft
      | m3PS t m j i0 ft =>
          by_cases hft : ft ≤ t + dt
          · have hstep :
                step (Event.advance dt)
                  ⟨t, ⟨some i0, none, none, some j, OverlayPhase.open_, m⟩,
                    [(ft, TimerAction.clearClosingPackage)]⟩ =
                ⟨t + dt, ⟨some i0, none, none, none, OverlayPhase.open_, m⟩, []⟩ := by
              simp [step, fireDue, hft, applyTimer]
            rw [hstep]
            exact Good.qS (t + dt) m i0
          · have hstep :
                step (Event.advance dt)
                  ⟨t, ⟨some i0, none, none, some j, OverlayPhase.open_, m⟩,
                    [(ft, TimerAction.clearClosingPackage)]⟩ =
                ⟨t + dt, ⟨some i0, none, none, some j, OverlayPhase.open_, m⟩,
                  [(ft, TimerAction.clearClosingPackage)]⟩ := by
              simp [step, fireDue, hft]
            rw [hstep]
            exact Good.m3PS (t + dt) m j i0 ft

theorem ws_good {y : Sys} (h : WSReach y) : Good y := by
  induction h with
  | base => exact Good.q0 0 false
  | next _ ha ih => exact good_step ih ha

theorem reach_run (es : List Event) : Reach (run es) := by
  induction es using List.reverseRecOn with
  | nil => exact Reach.base
  | append_singleton es e ih =>
      have h : run (es ++ [e]) = step e (run es) := by
        simp [run, List.foldl_append]
      rw [h]
      exact Reach.next ih

/-! Helper lemmas: the effect of a passage of time on a system whose
pending list holds one or two timers. -/

theorem step_advance_one (t dt ft : Nat) (s : CoordState) (a : TimerAction)
    (h : ¬ ft ≤ t + dt) :
    step (Event.advance dt) ⟨t, s, [(ft, a)]⟩ = ⟨t + dt, s, [(ft, a)]⟩ := by
  simp [step, fireDue, h]

theorem step_advance_one_fire (t dt ft : Nat) (s : CoordState) (a : TimerAction)
    (h : ft ≤ t + dt) :
    step (Event.advance dt) ⟨t, s, [(ft, a)]⟩ = ⟨t + dt, applyTimer a s, []⟩ := by
  simp [step, fireDue, h]

theorem step_advance_two (t dt ft : Nat) (s : CoordState) (a b : TimerAction)
    (h : ¬ ft ≤ t + dt) :
    step (Event.advance dt) ⟨t, s, [(ft, a), (ft, b)]⟩ =
      ⟨t + dt, s, [(ft, a), (ft, b)]⟩ := by
  simp [step, fireDue, h]

theorem step_advance_two_fire (t dt ft : Nat) (s : CoordState) (a b : TimerAction)
    (h : ft ≤ t + dt) :
    step (Event.advance dt) ⟨t, s, [(ft, a), (ft, b)]⟩ =
      ⟨t + dt, applyTimer b (applyTimer a s), []⟩ := by
  simp [step, fireDue, h]

/-- Claim C1 counterexample.  The claim fails on the code because a
stale `setOverlayPhase("idle")` timer from an earlier close fires after
a new card has already been opened: open service 0, toggle it off
(scheduling the idle timer), immediately open service 1, and let the
animation duration elapse.  The overlay phase is then `idle` while
service 1 is still open. -/
theorem c1_counterexample :
    Reach (run [Event.clickService (some 0), Event.clickService (some 0),
        Event.clickService (some 1), Event.advance ANIM_MS]) ∧
    (run [Event.clickService (some 0), Event.clickService (some 0),
        Event.clickService (some 1), Event.advance ANIM_MS]).st.overlayPhase =
      OverlayPhase.idle ∧
    (run [Event.clickService (some 0), Event.clickService (some 0),
        Event.clickService (some 1), Event.advance ANIM_MS]).st.openService =
      some 1 :=
  ⟨reach_run _, by decide, by decide⟩

/-- Claim C1 (amended): provided every toggle call happens while no
timer is pending (clicks at least one animation duration apart), in
every reachable state OverlayPhase is `idle` iff both groups'
SelectionState and TransitionState are simultaneously none. -/
theorem c1_overlay_idle_iff_none {y : Sys} (h : WSReach y) :
    y.st.overlayPhase = OverlayPhase.idle ↔
      (y.st.openService = none ∧ y.st.openPackage = none ∧
       y.st.closingService = none ∧ y.st.closingPackage = none) := by
  cases ws_good h <;> simp

/-- Claim C1 witness: the amended invariant evaluated at page mount. -/
theorem c1_witness :
    initSys.st.overlayPhase = OverlayPhase.idle ↔
      (initSys.st.openService = none ∧ initSys.st.openPackage = none ∧
       initSys.st.closingService = none ∧ initSys.st.closingPackage = none) :=
  c1_overlay_idle_iff_none WSReach.base

/-- Claim C2 counterexample.  During the same-group hand-off (open
service 0, then request service 1), both groups' SelectionState are
none while OverlayPhase is still `open`: the old card has been cleared
and the new one opens only after the animation duration.  This trace is
even well-spaced, so the unamended invariant fails on intended
executions too. -/
theorem c2_counterexample :
    Reach (run [Event.clickService (some 0), Event.clickService (some 1)]) ∧
    (run [Event.clickService (some 0), Event.clickService (some 1)]).st.overlayPhase =
      OverlayPhase.open_ ∧
    (run [Event.clickService (some 0), Event.clickService (some 1)]).st.openService =
      none ∧
    (run [Event.clickService (some 0), Event.clickService (some 1)]).st.openPackage =
      none :=
  ⟨reach_run _, by decide, by decide, by decide⟩

/-- Claim C2 (amended): provided every toggle call occurs while no
timer is pending (clicks at least one animation duration apart), in
every reachable state OverlayPhase is `open` only while at least one
group has a non-none SelectionState **or TransitionState**; and a close
request on the last open card moves OverlayPhase to `closing` in the
same call, keeps it `closing` for the whole animation window, and
reaches `idle` once the fixed animation duration has elapsed.  The
proviso must govern the whole statement, the invariant clause included:
`racy_overlay_open_all_none` below reaches `open` with all four cells
none on a trace that clicks during an animation window. -/
theorem c2_overlay_open_lifecycle {y : Sys} (h : WSReach y) :
    (y.st.overlayPhase = OverlayPhase.open_ →
       ¬(y.st.openService = none ∧ y.st.openPackage = none ∧
         y.st.closingService = none ∧ y.st.closingPackage = none)) ∧
    (∀ j, y.timers = [] → y.st.openService = some j →
       (step (Event.clickService none) y).st.overlayPhase = OverlayPhase.closing ∧
       (∀ dt, dt < ANIM_MS →
          (step (Event.advance dt)
            (step (Event.clickService none) y)).st.overlayPhase =
            OverlayPhase.closing) ∧
       (step (Event.advance ANIM_MS)
         (step (Event.clickService none) y)).st.overlayPhase =
         OverlayPhase.idle) ∧
    (∀ j, y.timers = [] → y.st.openPackage = some j →
       (step (Event.clickPackage none) y).st.overlayPhase = OverlayPhase.closing ∧
       (∀ dt, dt < ANIM_MS →
          (step (Event.advance dt)
            (step (Event.clickPackage none) y)).st.overlayPhase =
            OverlayPhase.closing) ∧
       (step (Event.advance ANIM_MS)
         (step (Event.clickPackage none) y)).st.overlayPhase =
         OverlayPhase.idle) := by
  cases ws_good h with
  | q0 t m =>
      refine ⟨by simp, ?_, ?_⟩ <;> · intro j hq hopen; simp at hopen
  | qS t m j0 =>
      refine ⟨by simp, ?_, ?_⟩
      · intro j hq hopen
        have hstep :
            step (Event.clickService none)
              (⟨t, ⟨some j0, none, none, none, OverlayPhase.open_, m⟩, []⟩ : Sys) =
            ⟨t, ⟨none, none, some j0, none, OverlayPhase.closing, m⟩,
              [(t + ANIM_MS, TimerAction.clearClosingService),
               (t + ANIM_MS, TimerAction.overlayIdle)]⟩ := rfl
        refine ⟨by rw [hstep], ?_, ?_⟩
        · intro dt hdt
          rw [hstep, step_advance_two _ _ _ _ _ _ (by omega)]
        · rw [hstep, step_advance_two_fire _ _ _ _ _ _ (by omega)]
          rfl
      · intro j hq hopen
        simp at hopen
  | qP t m j0 =>
      refine ⟨by simp, ?_, ?_⟩
      · intro j hq hopen
        simp at hopen
      · intro j hq hopen
        have hstep :
            step (Event.clickPackage none)
              (⟨t, ⟨none, some j0, none, none, OverlayPhase.open_, m⟩, []⟩ : Sys) =
            ⟨t, ⟨none, none, none, some j0, OverlayPhase.closing, m⟩,
              [(t + ANIM_MS, TimerAction.clearClosingPackage),
               (t + ANIM_MS, TimerAction.overlayIdle)]⟩ := rfl
        refine ⟨by rw [hstep], ?_, ?_⟩
        · intro dt hdt
          rw [hstep, step_advance_two _ _ _ _ _ _ (by omega)]
        · rw [hstep, step_advance_two_fire _ _ _ _ _ _ (by omega)]
          rfl
  | m1S t m j0 ft =>
      refine ⟨by simp, ?_, ?_⟩ <;> · intro j hq hopen; simp at hq
  | m1P t m j0 ft =>
      refine ⟨by simp, ?_, ?_⟩ <;> · intro j hq hopen; simp at hq
  | m2S t m j0 i0 ft =>
      refine ⟨by simp, ?_, ?_⟩ <;> · intro j hq hopen; simp at hq
  | m2P t m j0 i0 ft =>
      refine ⟨by simp, ?_, ?_⟩ <;> · intro j hq hopen; simp at hq
  | m3SP t m j0 i0 ft =>
      refine ⟨by simp, ?_, ?_⟩ <;> · intro j hq hopen; simp at hq
  | m3PS t m j0 i0 ft =>
      refine ⟨by simp, ?_, ?_⟩ <;> · intro j hq hopen; simp at hq

/-- Claim C2 witness: the amended lifecycle exercised from the state
with service 0 open, reached by one well-spaced click. -/
theorem c2_witness :
    ((step (Event.clickService (some 0)) initSys).st.overlayPhase =
        OverlayPhase.open_ →
      ¬((step (Event.clickService (some 0)) initSys).st.openService = none ∧
        (step (Event.clickService (some 0)) initSys).st.openPackage = none ∧
        (step (Event.clickService (some 0)) initSys).st.closingService = none ∧
        (step (Event.clickService (some 0)) initSys).st.closingPackage = none)) ∧
    (∀ j, (step (Event.clickService (some 0)) initSys).timers = [] →
       (step (Event.clickService (some 0)) initSys).st.openService = some j →
       (step (Event.clickService none)
         (step (Event.clickService (some 0)) initSys)).st.overlayPhase =
         OverlayPhase.closing ∧
       (∀ dt, dt < ANIM_MS →
          (step (Event.advance dt) (step (Event.clickService none)
            (step (Event.clickService (some 0)) initSys))).st.overlayPhase =
            OverlayPhase.closing) ∧
       (step (Event.advance ANIM_MS) (step (Event.clickService none)
         (step (Event.clickService (some 0)) initSys))).st.overlayPhase =
         OverlayPhase.idle) ∧
    (∀ j, (step (Event.clickService (some 0)) initSys).timers = [] →
       (step (Event.clickService (some 0)) initSys).st.openPackage = some j →
       (step (Event.clickPackage none)
         (step (Event.clickService (some 0)) initSys)).st.overlayPhase =
         OverlayPhase.closing ∧
       (∀ dt, dt < ANIM_MS →
          (step (Event.advance dt) (step (Event.clickPackage none)
            (step (Event.clickService (some 0)) initSys))).st.overlayPhase =
            OverlayPhase.closing) ∧
       (step (Event.advance ANIM_MS) (step (Event.clickPackage none)
         (step (Event.clickService (some 0)) initSys))).st.overlayPhase =
         OverlayPhase.idle) :=
  c2_overlay_open_lifecycle (WSReach.next WSReach.base rfl)

/-- On racy traces even the Selection-or-Transition form of the overlay
invariant fails, so the well-spacing proviso of the amended claim C2
must cover the invariant clause and not only the timing clauses: open
service 0, open package 0 (service 0 starts closing), open service 0
again (package 0 starts closing), request service 1 at 100 ms (the
hand-off clears SelectionState and defers the reopen to 520 ms); when
the two stale clears fire at 420 ms, all four cells are none while
OverlayPhase is still `open` until the reopen at 520 ms. -/
theorem racy_overlay_open_all_none :
    Reach (run [Event.clickService (some 0), Event.clickPackage (some 0),
        Event.clickService (some 0), Event.advance 100,
        Event.clickService (some 1), Event.advance 350]) ∧
    (run [Event.clickService (some 0), Event.clickPackage (some 0),
        Event.clickService (some 0), Event.advance 100,
        Event.clickService (some 1), Event.advance 350]).st.overlayPhase =
      OverlayPhase.open_ ∧
    (run [Event.clickService (some 0), Event.clickPackage (some 0),
        Event.clickService (some 0), Event.advance 100,
        Event.clickService (some 1), Event.advance 350]).st.openService =
      none ∧
    (run [Event.clickService (some 0), Event.clickPackage (some 0),
        Event.clickService (some 0), Event.advance 100,
        Event.clickService (some 1), Event.advance 350]).st.openPackage =
      none ∧
    (run [Event.clickService (some 0), Event.clickPackage (some 0),
        Event.clickService (some 0), Event.advance 100,
        Event.clickService (some 1), Event.advance 350]).st.closingService =
      none ∧
    (run [Event.clickService (some 0), Event.clickPackage (some 0),
        Event.clickService (some 0), Event.advance 100,
        Event.clickService (some 1), Event.advance 350]).st.closingPackage =
      none :=
  ⟨reach_run _, by decide, by decide, by decide, by decide, by decide⟩

/-- Claim C3 (confirmed): from any well-spaced reachable quiescent state
in which group B has an open card `j`, calling toggle on the other group
A with index `i` moves B's open card into B's TransitionState in the
same call with its clear scheduled one animation duration later, clears
B's SelectionState, opens A's card `i` immediately, keeps OverlayPhase
`open`, and after the animation duration B's SelectionState is still
none and its TransitionState has cleared. -/
theorem c3_cross_group_exclusivity {y : Sys} (h : WSReach y)
    (hq : y.timers = []) :
    (∀ j i, y.st.openPackage = some j →
       (step (Event.clickService (some i)) y).st.closingPackage = some j ∧
       (step (Event.clickService (some i)) y).timers =
         [(y.now + ANIM_MS, TimerAction.clearClosingPackage)] ∧
       (step (Event.clickService (some i)) y).st.openPackage = none ∧
       (step (Event.clickService (some i)) y).st.openService = some i ∧
       (step (Event.clickService (some i)) y).st.overlayPhase =
         OverlayPhase.open_ ∧
       (step (Event.advance ANIM_MS)
         (step (Event.clickService (some i)) y)).st.openPackage = none ∧
       (step (Event.advance ANIM_MS)
         (step (Event.clickService (some i)) y)).st.closingPackage = none) ∧
    (∀ j i, y.st.openService = some j →
       (step (Event.clickPackage (some i)) y).st.closingService = some j ∧
       (step (Event.clickPackage (some i)) y).timers =
         [(y.now + ANIM_MS, TimerAction.clearClosingService)] ∧
       (step (Event.clickPackage (some i)) y).st.openService = none ∧
       (step (Event.clickPackage (some i)) y).st.openPackage = some i ∧
       (step (Event.clickPackage (some i)) y).st.overlayPhase =
         OverlayPhase.open_ ∧
       (step (Event.advance ANIM_MS)
         (step (Event.clickPackage (some i)) y)).st.openService = none ∧
       (step (Event.advance ANIM_MS)
         (step (Event.clickPackage (some i)) y)).st.closingService = none) := by
  cases ws_good h with
  | q0 t m =>
      refine ⟨?_, ?_⟩ <;> · intro j i hopen; simp at hopen
  | qP t m j0 =>
      constructor
      · intro j i hopen
        have hji : j0 = j := by simpa using hopen
        subst hji
        have h1 :
            step (Event.clickService (some i))
              (⟨t, ⟨none, some j0, none, none, OverlayPhase.open_, m⟩, []⟩ : Sys) =
            ⟨t, ⟨some i, none, none, some j0, OverlayPhase.open_, m⟩,
              [(t + ANIM_MS, TimerAction.clearClosingPackage)]⟩ := rfl
        refine ⟨by rw [h1], by rw [h1], by rw [h1], by rw [h1], by rw [h1],
          ?_, ?_⟩
        · rw [h1, step_advance_one_fire _ _ _ _ _ (by omega)]
          rfl
        · rw [h1, step_advance_one_fire _ _ _ _ _ (by omega)]
          rfl
      · intro j i hopen; simp at hopen
  | qS t m j0 =>
      constructor
      · intro j i hopen; simp at hopen
      · intro j i hopen
        have hji : j0 = j := by simpa using hopen
        subst hji
        have h1 :
            step (Event.clickPackage (some i))
              (⟨t, ⟨some j0, none, none, none, OverlayPhase.open_, m⟩, []⟩ : Sys) =
            ⟨t, ⟨none, some i, some j0, none, OverlayPhase.open_, m⟩,
              [(t + ANIM_MS, TimerAction.clearClosingService)]⟩ := rfl
        refine ⟨by rw [h1], by rw [h1], by rw [h1], by rw [h1], by rw [h1],
          ?_, ?_⟩
        · rw [h1, step_advance_one_fire _ _ _ _ _ (by omega)]
          rfl
        · rw [h1, step_advance_one_fire _ _ _ _ _ (by omega)]
          rfl
  | m1S t m j0 ft => simp at hq
  | m1P t m j0 ft => simp at hq
  | m2S t m j0 i0 ft => simp at hq
  | m2P t m j0 i0 ft => simp at hq
  | m3SP t m j0 i0 ft => simp at hq
  | m3PS t m j0 i0 ft => simp at hq

/-- Claim C3 witness: packages card 2 open, then `toggle("services", 0)`. -/
theorem c3_witness :
    (step (Event.clickService (some 0))
      (run [Event.clickPackage (some 2)])).st.closingPackage = some 2 ∧
    (step (Event.clickService (some 0))
      (run [Event.clickPackage (some 2)])).timers =
      [((run [Event.clickPackage (some 2)]).now + ANIM_MS,
        TimerAction.clearClosingPackage)] ∧
    (step (Event.clickService (some 0))
      (run [Event.clickPackage (some 2)])).st.openPackage = none ∧
    (step (Event.clickService (some 0))
      (run [Event.clickPackage (some 2)])).st.openService = some 0 ∧
    (step (Event.clickService (some 0))
      (run [Event.clickPackage (some 2)])).st.overlayPhase =
      OverlayPhase.open_ ∧
    (step (Event.advance ANIM_MS) (step (Event.clickService (some 0))
      (run [Event.clickPackage (some 2)]))).st.openPackage = none ∧
    (step (Event.advance ANIM_MS) (step (Event.clickService (some 0))
      (run [Event.clickPackage (some 2)]))).st.closingPackage = none :=
  (c3_cross_group_exclusivity (@WSReach.next initSys (Event.clickPackage (some 2)) WSReach.base rfl) rfl).1 2 0 rfl

/-- Claim C4 (confirmed): from any well-spaced reachable quiescent state
with group G's card `p` open, toggling a different valid index `i` of
the same group moves `p` to G's TransitionState and clears G's
SelectionState in the same call; G's SelectionState remains none for
the whole animation window and becomes `i` exactly when the duration
has elapsed, at which point the TransitionState clears. -/
theorem c4_same_group_handoff {y : Sys} (h : WSReach y)
    (hq : y.timers = []) :
    (∀ p i, y.st.openService = some p → p ≠ i →
       (step (Event.clickService (some i)) y).st.closingService = some p ∧
       (step (Event.clickService (some i)) y).st.openService = none ∧
       (∀ dt, dt < ANIM_MS →
          (step (Event.advance dt)
            (step (Event.clickService (some i)) y)).st.openService = none ∧
          (step (Event.advance dt)
            (step (Event.clickService (some i)) y)).st.closingService = some p) ∧
       (step (Event.advance ANIM_MS)
         (step (Event.clickService (some i)) y)).st.openService = some i ∧
       (step (Event.advance ANIM_MS)
         (step (Event.clickService (some i)) y)).st.closingService = none) ∧
    (∀ p i, y.st.openPackage = some p → p ≠ i →
       (step (Event.clickPackage (some i)) y).st.closingPackage = some p ∧
       (step (Event.clickPackage (some i)) y).st.openPackage = none ∧
       (∀ dt, dt < ANIM_MS →
          (step (Event.advance dt)
            (step (Event.clickPackage (some i)) y)).st.openPackage = none ∧
          (step (Event.advance dt)
            (step (Event.clickPackage (some i)) y)).st.closingPackage = some p) ∧
       (step (Event.advance ANIM_MS)
         (step (Event.clickPackage (some i)) y)).st.openPackage = some i ∧
       (step (Event.advance ANIM_MS)
         (step (Event.clickPackage (some i)) y)).st.closingPackage = none) := by
  cases ws_good h with
  | q0 t m =>
      refine ⟨?_, ?_⟩ <;> · intro p i hopen hne; simp at hopen
  | qS t m j0 =>
      constructor
      · intro p i hopen hne
        have hjp : j0 = p := by simpa using hopen
        subst hjp
        have h1 :
            step (Event.clickService (some i))
              (⟨t, ⟨some j0, none, none, none, OverlayPhase.open_, m⟩, []⟩ : Sys) =
            ⟨t, ⟨none, none, some j0, none, OverlayPhase.open_, m⟩,
              [(t + ANIM_MS, TimerAction.reopenService i)]⟩ := by
          simp [step, toggleServiceActs, hne, runActs, applyAct, applySet]
        refine ⟨by rw [h1], by rw [h1], ?_, ?_, ?_⟩
        · intro dt hdt
          rw [h1, step_advance_one _ _ _ _ _ (by omega)]
          exact ⟨rfl, rfl⟩
        · rw [h1, step_advance_one_fire _ _ _ _ _ (by omega)]
          rfl
        · rw [h1, step_advance_one_fire _ _ _ _ _ (by omega)]
          rfl
      · intro p i hopen hne; simp at hopen
  | qP t m j0 =>
      constructor
      · intro p i hopen hne; simp at hopen
      · intro p i hopen hne
        have hjp : j0 = p := by simpa using hopen
        subst hjp
        have h1 :
            step (Event.clickPackage (some i))
              (⟨t, ⟨none, some j0, none, none, OverlayPhase.open_, m⟩, []⟩ : Sys) =
            ⟨t, ⟨none, none, none, some j0, OverlayPhase.open_, m⟩,
              [(t + ANIM_MS, TimerAction.reopenPackage i)]⟩ := by
          simp [step, togglePackageActs, hne, runActs, applyAct, applySet]
        refine ⟨by rw [h1], by rw [h1], ?_, ?_, ?_⟩
        · intro dt hdt
          rw [h1, step_advance_one _ _ _ _ _ (by omega)]
          exact ⟨rfl, rfl⟩
        · rw [h1, step_advance_one_fire _ _ _ _ _ (by omega)]
          rfl
        · rw [h1, step_advance_one_fire _ _ _ _ _ (by omega)]
          rfl
  | m1S t m j0 ft => simp at hq
  | m1P t m j0 ft => simp at hq
  | m2S t m j0 i0 ft => simp at hq
  | m2P t m j0 i0 ft => simp at hq
  | m3SP t m j0 i0 ft => simp at hq
  | m3PS t m j0 i0 ft => simp at hq

/-- Claim C4 witness: packages card 2 open, then `toggle("packages", 4)`. -/
theorem c4_witness :
    (step (Event.clickPackage (some 4))
      (run [Event.clickPackage (some 2)])).st.closingPackage = some 2 ∧
    (step (Event.clickPackage (some 4))
      (run [Event.clickPackage (some 2)])).st.openPackage = none ∧
    (∀ dt, dt < ANIM_MS →
       (step (Event.advance dt) (step (Event.clickPackage (some 4))
         (run [Event.clickPackage (some 2)]))).st.openPackage = none ∧
       (step (Event.advance dt) (step (Event.clickPackage (some 4))
         (run [Event.clickPackage (some 2)]))).st.closingPackage = some 2) ∧
    (step (Event.advance ANIM_MS) (step (Event.clickPackage (some 4))
      (run [Event.clickPackage (some 2)]))).st.openPackage = some 4 ∧
    (step (Event.advance ANIM_MS) (step (Event.clickPackage (some 4))
      (run [Event.clickPackage (some 2)]))).st.closingPackage = none :=
  (c4_same_group_handoff (@WSReach.next initSys (Event.clickPackage (some 2)) WSReach.base rfl) rfl).2 2 4 rfl
    (by decide)

/-- Claim C5 (confirmed): from any well-spaced reachable quiescent state
with group G's card `i` open, `toggle(G, i)` produces exactly the same
system state as `toggle(G, none)`: SelectionState becomes none in the
same call, TransitionState holds `i` for the whole animation window and
clears at the duration, and OverlayPhase goes `open` to `closing`
immediately and to `idle` once the duration has elapsed. -/
theorem c5_toggle_off_equiv {y : Sys} (h : WSReach y) (hq : y.timers = []) :
    (∀ i, y.st.openService = some i →
       step (Event.clickService (some i)) y = step (Event.clickService none) y ∧
       y.st.overlayPhase = OverlayPhase.open_ ∧
       (step (Event.clickService (some i)) y).st.openService = none ∧
       (step (Event.clickService (some i)) y).st.closingService = some i ∧
       (step (Event.clickService (some i)) y).st.overlayPhase =
         OverlayPhase.closing ∧
       (∀ dt, dt < ANIM_MS →
          (step (Event.advance dt)
            (step (Event.clickService (some i)) y)).st.closingService = some i ∧
          (step (Event.advance dt)
            (step (Event.clickService (some i)) y)).st.overlayPhase =
            OverlayPhase.closing) ∧
       (step (Event.advance ANIM_MS)
         (step (Event.clickService (some i)) y)).st.closingService = none ∧
       (step (Event.advance ANIM_MS)
         (step (Event.clickService (some i)) y)).st.overlayPhase =
         OverlayPhase.idle) ∧
    (∀ i, y.st.openPackage = some i →
       step (Event.clickPackage (some i)) y = step (Event.clickPackage none) y ∧
       y.st.overlayPhase = OverlayPhase.open_ ∧
       (step (Event.clickPackage (some i)) y).st.openPackage = none ∧
       (step (Event.clickPackage (some i)) y).st.closingPackage = some i ∧
       (step (Event.clickPackage (some i)) y).st.overlayPhase =
         OverlayPhase.closing ∧
       (∀ dt, dt < ANIM_MS →
          (step (Event.advance dt)
            (step (Event.clickPackage (some i)) y)).st.closingPackage = some i ∧
          (step (Event.advance dt)
            (step (Event.clickPackage (some i)) y)).st.overlayPhase =
            OverlayPhase.closing) ∧
       (step (Event.advance ANIM_MS)
         (step (Event.clickPackage (some i)) y)).st.closingPackage = none ∧
       (step (Event.advance ANIM_MS)
         (step (Event.clickPackage (some i)) y)).st.overlayPhase =
         OverlayPhase.idle) := by
  cases ws_good h with
  | q0 t m =>
      refine ⟨?_, ?_⟩ <;> · intro i hopen; simp at hopen
  | qS t m j0 =>
      constructor
      · intro i hopen
        have hji : j0 = i := by simpa using hopen
        subst hji
        have h1 :
            step (Event.clickService (some j0))
              (⟨t, ⟨some j0, none, none, none, OverlayPhase.open_, m⟩, []⟩ : Sys) =
            ⟨t, ⟨none, none, some j0, none, OverlayPhase.closing, m⟩,
              [(t + ANIM_MS, TimerAction.clearClosingService),
               (t + ANIM_MS, TimerAction.overlayIdle)]⟩ := by
          simp [step, toggleServiceActs, closeAllWithOverlayActs,
            startCloseServiceActs, runActs, applyAct, applySet]
        have h2 :
            step (Event.clickService none)
              (⟨t, ⟨some j0, none, none, none, OverlayPhase.open_, m⟩, []⟩ : Sys) =
            ⟨t, ⟨none, none, some j0, none, OverlayPhase.closing, m⟩,
              [(t + ANIM_MS, TimerAction.clearClosingService),
               (t + ANIM_MS, TimerAction.overlayIdle)]⟩ := rfl
        refine ⟨h1.trans h2.symm, rfl, by rw [h1], by rw [h1], by rw [h1],
          ?_, ?_, ?_⟩
        · intro dt hdt
          rw [h1, step_advance_two _ _ _ _ _ _ (by omega)]
          exact ⟨rfl, rfl⟩
        · rw [h1, step_advance_two_fire _ _ _ _ _ _ (by omega)]
          rfl
        · rw [h1, step_advance_two_fire _ _ _ _ _ _ (by omega)]
          rfl
      · intro i hopen; simp at hopen
  | qP t m j0 =>
      constructor
      · intro i hopen; simp at hopen
      · intro i hopen
        have hji : j0 = i := by simpa using hopen
        subst hji
        have h1 :
            step (Event.clickPackage (some j0))
              (⟨t, ⟨none, some j0, none, none, OverlayPhase.open_, m⟩, []⟩ : Sys) =
            ⟨t, ⟨none, none, none, some j0, OverlayPhase.closing, m⟩,
              [(t + ANIM_MS, TimerAction.clearClosingPackage),
               (t + ANIM_MS, TimerAction.overlayIdle)]⟩ := by
          simp [step, togglePackageActs, closeAllWithOverlayActs,
            startClosePackageActs, runActs, applyAct, applySet]
        have h2 :
            step (Event.clickPackage none)
              (⟨t, ⟨none, some j0, none, none, OverlayPhase.open_, m⟩, []⟩ : Sys) =
            ⟨t, ⟨none, none, none, some j0, OverlayPhase.closing, m⟩,
              [(t + ANIM_MS, TimerAction.clearClosingPackage),
               (t + ANIM_MS, TimerAction.overlayIdle)]⟩ := rfl
        refine ⟨h1.trans h2.symm, rfl, by rw [h1], by rw [h1], by rw [h1],
          ?_, ?_, ?_⟩
        · intro dt hdt
          rw [h1, step_advance_two _ _ _ _ _ _ (by omega)]
          exact ⟨rfl, rfl⟩
        · rw [h1, step_advance_two_fire _ _ _ _ _ _ (by omega)]
          rfl
        · rw [h1, step_advance_two_fire _ _ _ _ _ _ (by omega)]
          rfl
  | m1S t m j0 ft => simp at hq
  | m1P t m j0 ft => simp at hq
  | m2S t m j0 i0 ft => simp at hq
  | m2P t m j0 i0 ft => simp at hq
  | m3SP t m j0 i0 ft => simp at hq
  | m3PS t m j0 i0 ft => simp at hq

/-- Claim C5 witness: `toggle("packages", 2)` twice, the second call a
toggle-off equivalent to `toggle("packages", none)`. -/
theorem c5_witness :
    step (Event.clickPackage (some 2)) (run [Event.clickPackage (some 2)]) =
      step (Event.clickPackage none) (run [Event.clickPackage (some 2)]) ∧
    (run [Event.clickPackage (some 2)]).st.overlayPhase =
      OverlayPhase.open_ ∧
    (step (Event.clickPackage (some 2))
      (run [Event.clickPackage (some 2)])).st.openPackage = none ∧
    (step (Event.clickPackage (some 2))
      (run [Event.clickPackage (some 2)])).st.closingPackage = some 2 ∧
    (step (Event.clickPackage (some 2))
      (run [Event.clickPackage (some 2)])).st.overlayPhase =
      OverlayPhase.closing ∧
    (∀ dt, dt < ANIM_MS →
       (step (Event.advance dt) (step (Event.clickPackage (some 2))
         (run [Event.clickPackage (some 2)]))).st.closingPackage = some 2 ∧
       (step (Event.advance dt) (step (Event.clickPackage (some 2))
         (run [Event.clickPackage (some 2)]))).st.overlayPhase =
         OverlayPhase.closing) ∧
    (step (Event.advance ANIM_MS) (step (Event.clickPackage (some 2))
      (run [Event.clickPackage (some 2)]))).st.closingPackage = none ∧
    (step (Event.advance ANIM_MS) (step (Event.clickPackage (some 2))
      (run [Event.clickPackage (some 2)]))).st.overlayPhase =
      OverlayPhase.idle :=
  (c5_toggle_off_equiv (@WSReach.next initSys (Event.clickPackage (some 2)) WSReach.base rfl) rfl).2 2 rfl

/-- Claim C6 counterexample.  A close request made while an earlier
close's clear timer is still pending has its TransitionState wiped by
that stale timer well before its own animation duration has elapsed:
close service 0 at time 0, reopen service 1 at time 100, close it at
time 300; the time-0 timer fires at 420 and clears the TransitionState
set at 300 after only 120 ms. -/
theorem c6_counterexample :
    Reach (run [Event.clickService (some 0), Event.clickService (some 0),
        Event.advance 100, Event.clickService (some 1), Event.advance 200,
        Event.clickService (some 1), Event.advance 120]) ∧
    (run [Event.clickService (some 0), Event.clickService (some 0),
        Event.advance 100, Event.clickService (some 1), Event.advance 200,
        Event.clickService (some 1)]).now = 300 ∧
    (run [Event.clickService (some 0), Event.clickService (some 0),
        Event.advance 100, Event.clickService (some 1), Event.advance 200,
        Event.clickService (some 1)]).st.closingService = some 1 ∧
    (run [Event.clickService (some 0), Event.clickService (some 0),
        Event.advance 100, Event.clickService (some 1), Event.advance 200,
        Event.clickService (some 1), Event.advance 120]).now = 420 ∧
    (run [Event.clickService (some 0), Event.clickService (some 0),
        Event.advance 100, Event.clickService (some 1), Event.advance 200,
        Event.clickService (some 1), Event.advance 120]).st.closingService =
      none ∧
    (run [Event.clickService (some 0), Event.clickService (some 0),
        Event.advance 100, Event.clickService (some 1), Event.advance 200,
        Event.clickService (some 1), Event.advance 120]).now <
      (run [Event.clickService (some 0), Event.clickService (some 0),
        Event.advance 100, Event.clickService (some 1), Event.advance 200,
        Event.clickService (some 1)]).now + ANIM_MS :=
  ⟨reach_run _, by decide, by decide, by decide, by decide, by decide⟩

/-- Claim C6 (amended): provided every toggle call of the trace — the
close request itself included — is made while no timer is pending
(clicks at least one animation duration apart), the TransitionState set
by a close request keeps its index for every elapse shorter than the
fixed animation duration and is none for every elapse of at least that
duration — it clears neither earlier nor later.  Forbidding only calls
*after* the close would not suffice: in the counterexample trace above
the close at 300 ms is the last call of its trace, yet a clear
scheduled by an earlier close, still pending when the close is issued,
wipes its TransitionState 120 ms in. -/
theorem c6_timed_clear {y : Sys} (h : WSReach y) (hq : y.timers = []) :
    (∀ j, y.st.openService = some j →
       (step (Event.clickService none) y).st.closingService = some j ∧
       (∀ dt, dt < ANIM_MS →
          (step (Event.advance dt)
            (step (Event.clickService none) y)).st.closingService = some j) ∧
       (∀ dt, ANIM_MS ≤ dt →
          (step (Event.advance dt)
            (step (Event.clickService none) y)).st.closingService = none)) ∧
    (∀ j, y.st.openPackage = some j →
       (step (Event.clickPackage none) y).st.closingPackage = some j ∧
       (∀ dt, dt < ANIM_MS →
          (step (Event.advance dt)
            (step (Event.clickPackage none) y)).st.closingPackage = some j) ∧
       (∀ dt, ANIM_MS ≤ dt →
          (step (Event.advance dt)
            (step (Event.clickPackage none) y)).st.closingPackage = none)) := by
  cases ws_good h with
  | q0 t m =>
      refine ⟨?_, ?_⟩ <;> · intro j hopen; simp at hopen
  | qS t m j0 =>
      constructor
      · intro j hopen
        have hji : j0 = j := by simpa using hopen
        subst hji
        have h1 :
            step (Event.clickService none)
              (⟨t, ⟨some j0, none, none, none, OverlayPhase.open_, m⟩, []⟩ : Sys) =
            ⟨t, ⟨none, none, some j0, none, OverlayPhase.closing, m⟩,
              [(t + ANIM_MS, TimerAction.clearClosingService),
               (t + ANIM_MS, TimerAction.overlayIdle)]⟩ := rfl
        refine ⟨by rw [h1], ?_, ?_⟩
        · intro dt hdt
          rw [h1, step_advance_two _ _ _ _ _ _ (by omega)]
        · intro dt hdt
          rw [h1, step_advance_two_fire _ _ _ _ _ _ (by omega)]
          rfl
      · intro j hopen; simp at hopen
  | qP t m j0 =>
      constructor
      · intro j hopen; simp at hopen
      · intro j hopen
        have hji : j0 = j := by simpa using hopen
        subst hji
        have h1 :
            step (Event.clickPackage none)
              (⟨t, ⟨none, some j0, none, none, OverlayPhase.open_, m⟩, []⟩ : Sys) =
            ⟨t, ⟨none, none, none, some j0, OverlayPhase.closing, m⟩,
              [(t + ANIM_MS, TimerAction.clearClosingPackage),
               (t + ANIM_MS, TimerAction.overlayIdle)]⟩ := rfl
        refine ⟨by rw [h1], ?_, ?_⟩
        · intro dt hdt
          rw [h1, step_advance_two _ _ _ _ _ _ (by omega)]
        · intro dt hdt
          rw [h1, step_advance_two_fire _ _ _ _ _ _ (by omega)]
          rfl
  | m1S t m j0 ft => simp at hq
  | m1P t m j0 ft => simp at hq
  | m2S t m j0 i0 ft => simp at hq
  | m2P t m j0 i0 ft => simp at hq
  | m3SP t m j0 i0 ft => simp at hq
  | m3PS t m j0 i0 ft => simp at hq

/-- Claim C6 witness: service 0 open, then a close request; its
TransitionState clears exactly at the animation duration. -/
theorem c6_witness :
    (step (Event.clickService none)
      (run [Event.clickService (some 0)])).st.closingService = some 0 ∧
    (∀ dt, dt < ANIM_MS →
       (step (Event.advance dt) (step (Event.clickService none)
         (run [Event.clickService (some 0)]))).st.closingService = some 0) ∧
    (∀ dt, ANIM_MS ≤ dt →
       (step (Event.advance dt) (step (Event.clickService none)
         (run [Event.clickService (some 0)]))).st.closingService = none) :=
  (c6_timed_clear
    (@WSReach.next initSys (Event.clickService (some 0)) WSReach.base rfl)
    rfl).1 0 rfl

/-- Claim C7 (confirmed): calling `toggle(group, none)` while that group
has nothing open leaves the whole system state unchanged — both groups'
SelectionState and TransitionState, OverlayPhase, the derived
scroll-lock flag — and schedules no timer.  This holds for every state,
reachable or not. -/
theorem c7_idempotent_close (y : Sys) :
    (y.st.openService = none →
       step (Event.clickService none) y = y ∧
       scrollLocked (step (Event.clickService none) y).st =
         scrollLocked y.st ∧
       (step (Event.clickService none) y).timers = y.timers) ∧
    (y.st.openPackage = none →
       step (Event.clickPackage none) y = y ∧
       scrollLocked (step (Event.clickPackage none) y).st =
         scrollLocked y.st ∧
       (step (Event.clickPackage none) y).timers = y.timers) := by
  constructor
  · intro h
    have hstep : step (Event.clickService none) y = y := by
      simp [step, toggleServiceActs, h, runActs]
    exact ⟨hstep, by rw [hstep], by rw [hstep]⟩
  · intro h
    have hstep : step (Event.clickPackage none) y = y := by
      simp [step, togglePackageActs, h, runActs]
    exact ⟨hstep, by rw [hstep], by rw [hstep]⟩

/-- Claim C7 witness: the idempotent close evaluated at page mount. -/
theorem c7_witness :
    step (Event.clickService none) initSys = initSys ∧
    scrollLocked (step (Event.clickService none) initSys).st =
      scrollLocked initSys.st ∧
    (step (Event.clickService none) initSys).timers = initSys.timers :=
  (c7_idempotent_close initSys).1 rfl

/-- Claim C8 (confirmed): in every state, a card at index `i` is dimmed
iff OverlayPhase is `open` and `i` is neither the open index nor the
closing index of its own group; and after `toggle("packages", 2)` on a
fresh page, packages card 2 is open, OverlayPhase is `open`, and the
dimmed indices are exactly packages 0, 1, 3, 4 and every services
index. -/
theorem c8_dimming :
    (∀ (phase : OverlayPhase) (openIndex closingIndex : Option Nat) (i : Nat),
        dimOthers phase openIndex closingIndex i = true ↔
          (phase = OverlayPhase.open_ ∧ openIndex ≠ some i ∧
           closingIndex ≠ some i)) ∧
    (run [Event.clickPackage (some 2)]).st.openPackage = some 2 ∧
    (run [Event.clickPackage (some 2)]).st.overlayPhase =
      OverlayPhase.open_ ∧
    (List.range packagesCount).filter (fun i =>
        dimOthers (run [Event.clickPackage (some 2)]).st.overlayPhase
          (run [Event.clickPackage (some 2)]).st.openPackage
          (run [Event.clickPackage (some 2)]).st.closingPackage i) =
      [0, 1, 3, 4] ∧
    (List.range servicesCount).filter (fun i =>
        dimOthers (run [Event.clickPackage (some 2)]).st.overlayPhase
          (run [Event.clickPackage (some 2)]).st.openService
          (run [Event.clickPackage (some 2)]).st.closingService i) =
      [0] := by
  refine ⟨?_, by decide, by decide, by decide, by decide⟩
  intro phase openIndex closingIndex i
  simp [dimOthers, not_or, and_assoc]

theorem runActs_split (t : Nat) (acts : List Act) (s : CoordState)
    (ts : List (Nat × TimerAction)) :
    runActs t acts (s, ts) = (applySets acts s, ts ++ schedOf t acts) := by
  induction acts generalizing s ts with
  | nil => simp [runActs, applySets, schedOf]
  | cons a rest ih =>
      cases a <;>
        simp [runActs, applySets, schedOf, applyAct, applySet,
          List.foldl_cons] at ih ⊢ <;>
        simp [ih, runActs, applySets, schedOf]

/-- Claim C9 (confirmed): within one toggle call all SelectionState
mutations land in the committed state exactly as the in-order
composition of the handler's setter calls — the interleaved
`setTimeout` calls neither affect the committed state nor have their
fire time (call time plus the animation duration) altered by their
position — and a second toggle call arriving in the same instant reads
the state just committed by the first call, never the pre-call state. -/
theorem c9_sync_before_timers (y : Sys) (i1 i2 : Option Nat) :
    step (Event.clickService i1) y =
      ⟨y.now, applySets (toggleServiceActs y.st i1) y.st,
       y.timers ++ schedOf y.now (toggleServiceActs y.st i1)⟩ ∧
    step (Event.clickPackage i1) y =
      ⟨y.now, applySets (togglePackageActs y.st i1) y.st,
       y.timers ++ schedOf y.now (togglePackageActs y.st i1)⟩ ∧
    (step (Event.clickService i2) (step (Event.clickService i1) y)).st =
      applySets
        (toggleServiceActs (applySets (toggleServiceActs y.st i1) y.st) i2)
        (applySets (toggleServiceActs y.st i1) y.st) ∧
    (step (Event.clickPackage i2) (step (Event.clickService i1) y)).st =
      applySets
        (togglePackageActs (applySets (toggleServiceActs y.st i1) y.st) i2)
        (applySets (toggleServiceActs y.st i1) y.st) := by
  refine ⟨?_, ?_, ?_, ?_⟩ <;> simp [step, runActs_split]

/-- Claim C10 (confirmed): in any well-spaced reachable quiescent state
with OverlayPhase `open`, the backdrop is mounted and click-receptive,
and clicking it runs the same close-all sequence as a close request on
whichever group is open: OverlayPhase moves to `closing` in the same
call, stays `closing` for the whole animation window, and is `idle`
once the fixed duration has elapsed; the open card of either group
moves to its TransitionState for that window with its SelectionState
cleared. -/
theorem c10_backdrop_close {y : Sys} (h : WSReach y) (hq : y.timers = [])
    (hph : y.st.overlayPhase = OverlayPhase.open_) :
    overlayMounted y.st = true ∧
    overlayReceptive y.st = true ∧
    (step Event.backdropClick y).st.overlayPhase = OverlayPhase.closing ∧
    (∀ dt, dt < ANIM_MS →
       (step (Event.advance dt)
         (step Event.backdropClick y)).st.overlayPhase =
         OverlayPhase.closing) ∧
    (step (Event.advance ANIM_MS)
      (step Event.backdropClick y)).st.overlayPhase = OverlayPhase.idle ∧
    (∀ j, y.st.openService = some j →
       step Event.backdropClick y = step (Event.clickService none) y ∧
       (step Event.backdropClick y).st.closingService = some j ∧
       (step Event.backdropClick y).st.openService = none ∧
       (∀ dt, dt < ANIM_MS →
          (step (Event.advance dt)
            (step Event.backdropClick y)).st.closingService = some j) ∧
       (step (Event.advance ANIM_MS)
         (step Event.backdropClick y)).st.closingService = none) ∧
    (∀ j, y.st.openPackage = some j →
       step Event.backdropClick y = step (Event.clickPackage none) y ∧
       (step Event.backdropClick y).st.closingPackage = some j ∧
       (step Event.backdropClick y).st.openPackage = none ∧
       (∀ dt, dt < ANIM_MS →
          (step (Event.advance dt)
            (step Event.backdropClick y)).st.closingPackage = some j) ∧
       (step (Event.advance ANIM_MS)
         (step Event.backdropClick y)).st.closingPackage = none) := by
  cases ws_good h with
  | q0 t m => simp at hph
  | qS t m j0 =>
      have h1 :
          step Event.backdropClick
            (⟨t, ⟨some j0, none, none, none, OverlayPhase.open_, m⟩, []⟩ : Sys) =
          ⟨t, ⟨none, none, some j0, none, OverlayPhase.closing, m⟩,
            [(t + ANIM_MS, TimerAction.clearClosingService),
             (t + ANIM_MS, TimerAction.overlayIdle)]⟩ := rfl
      refine ⟨rfl, rfl, by rw [h1], ?_, ?_, ?_, ?_⟩
      · intro dt hdt
        rw [h1, step_advance_two _ _ _ _ _ _ (by omega)]
      · rw [h1, step_advance_two_fire _ _ _ _ _ _ (by omega)]
        rfl
      · intro j hopen
        have hji : j0 = j := by simpa using hopen
        subst hji
        refine ⟨rfl, by rw [h1], by rw [h1], ?_, ?_⟩
        · intro dt hdt
          rw [h1, step_advance_two _ _ _ _ _ _ (by omega)]
        · rw [h1, step_advance_two_fire _ _ _ _ _ _ (by omega)]
          rfl
      · intro j hopen; simp at hopen
  | qP t m j0 =>
      have h1 :
          step Event.backdropClick
            (⟨t, ⟨none, some j0, none, none, OverlayPhase.open_, m⟩, []⟩ : Sys) =
          ⟨t, ⟨none, none, none, some j0, OverlayPhase.closing, m⟩,
            [(t + ANIM_MS, TimerAction.clearClosingPackage),
             (t + ANIM_MS, TimerAction.overlayIdle)]⟩ := rfl
      refine ⟨rfl, rfl, by rw [h1], ?_, ?_, ?_, ?_⟩
      · intro dt hdt
        rw [h1, step_advance_two _ _ _ _ _ _ (by omega)]
      · rw [h1, step_advance_two_fire _ _ _ _ _ _ (by omega)]
        rfl
      · intro j hopen; simp at hopen
      · intro j hopen
        have hji : j0 = j := by simpa using hopen
        subst hji
        refine ⟨rfl, by rw [h1], by rw [h1], ?_, ?_⟩
        · intro dt hdt
          rw [h1, step_advance_two _ _ _ _ _ _ (by omega)]
        · rw [h1, step_advance_two_fire _ _ _ _ _ _ (by omega)]
          rfl
  | m1S t m j0 ft => simp at hq
  | m1P t m j0 ft => simp at hq
  | m2S t m j0 i0 ft => simp at hq
  | m2P t m j0 i0 ft => simp at hq
  | m3SP t m j0 i0 ft => simp at hq
  | m3PS t m j0 i0 ft => simp at hq

/-- Claim C10 witness: packages card 2 open, then a backdrop click. -/
theorem c10_witness :
    overlayMounted (run [Event.clickPackage (some 2)]).st = true ∧
    overlayReceptive (run [Event.clickPackage (some 2)]).st = true ∧
    (step Event.backdropClick
      (run [Event.clickPackage (some 2)])).st.overlayPhase =
      OverlayPhase.closing ∧
    (∀ dt, dt < ANIM_MS →
       (step (Event.advance dt) (step Event.backdropClick
         (run [Event.clickPackage (some 2)]))).st.overlayPhase =
         OverlayPhase.closing) ∧
    (step (Event.advance ANIM_MS) (step Event.backdropClick
      (run [Event.clickPackage (some 2)]))).st.overlayPhase =
      OverlayPhase.idle ∧
    (∀ j, (run [Event.clickPackage (some 2)]).st.openService = some j →
       step Event.backdropClick (run [Event.clickPackage (some 2)]) =
         step (Event.clickService none) (run [Event.clickPackage (some 2)]) ∧
       (step Event.backdropClick
         (run [Event.clickPackage (some 2)])).st.closingService = some j ∧
       (step Event.backdropClick
         (run [Event.clickPackage (some 2)])).st.openService = none ∧
       (∀ dt, dt < ANIM_MS →
          (step (Event.advance dt) (step Event.backdropClick
            (run [Event.clickPackage (some 2)]))).st.closingService = some j) ∧
       (step (Event.advance ANIM_MS) (step Event.backdropClick
         (run [Event.clickPackage (some 2)]))).st.closingService = none) ∧
    (∀ j, (run [Event.clickPackage (some 2)]).st.openPackage = some j →
       step Event.backdropClick (run [Event.clickPackage (some 2)]) =
         step (Event.clickPackage none) (run [Event.clickPackage (some 2)]) ∧
       (step Event.backdropClick
         (run [Event.clickPackage (some 2)])).st.closingPackage = some j ∧
       (step Event.backdropClick
         (run [Event.clickPackage (some 2)])).st.openPackage = none ∧
       (∀ dt, dt < ANIM_MS →
          (step (Event.advance dt) (step Event.backdropClick
            (run [Event.clickPackage (some 2)]))).st.closingPackage = some j) ∧
       (step (Event.advance ANIM_MS) (step Event.backdropClick
         (run [Event.clickPackage (some 2)]))).st.closingPackage = none) :=
  c10_backdrop_close
    (@WSReach.next initSys (Event.clickPackage (some 2)) WSReach.base rfl)
    rfl rfl
